import Mathlib

/-!
Shallow embedding of the frame-lifecycle controller of
`src/Win32-Ganesh-D3D12.cpp` (repository fredemmott/HelloSkia).

The CPU-side controller state (`HelloSkiaWindow`) and its operations
(`RenderFrame`, `CleanupFrameContexts`, `CreateRenderTargets`,
`RenderNonSkiaContent`, `RenderSkiaContent`, `WindowProc`, `Run`) are
translated from the source.  Calls into the GPU / windowing / Skia
collaborators are recorded as an ordered trace of `Ev` events; the GPU
itself is an external execution domain, so the trace records exactly the
synchronization-relevant calls the CPU makes, in program order.

The companion header `Win32-Ganesh-D3D12.hpp` is referenced by the build
file but is not part of the sources here; the ring length
`SwapChainLength` is therefore kept as a state component and the initial
field values of `HelloSkiaWindow.init` are modelled from the spec
(markers start at zero, ring index starts at slot 0, no pending resize).
-/

/-- Pixel dimensions, from the `PixelSize` aggregate used for
`mWindowSize` / `mPendingResize`. -/
structure PixelSize where
  mWidth : Nat
  mHeight : Nat
deriving DecidableEq, Repr, Inhabited

/-- Per-ring-slot state bundle (`FrameContext` in the source).
`mFenceValue` is the slot's last-submitted completion marker.
`mRenderTarget` stands for the render-target-dependent resources
(`mRenderTarget`, `mRenderTargetView`, `mSkSurface`): `some sz` means they
exist and were created against swap-chain dimensions `sz`; `none` means
they have been released. -/
structure FrameContext where
  mFenceValue : Nat
  mRenderTarget : Option PixelSize
deriving DecidableEq, Repr, Inhabited

/-- Synchronization-relevant calls the CPU issues, in program order.
* `skiaSyncCpuFlush` — `mSkContext->flushAndSubmit(GrSyncCpu::kYes)`;
* `queueSignal m` — `mD3DCommandQueue->Signal(mD3DFence.get(), m)`;
* `skiaSignal m` — the semaphore with value `m` signaled by
  `mSkContext->flush(..., GrFlushInfo with fSignalSemaphores)`;
* `skiaGpuWait m` — `mSkContext->wait` on fence value `m` (GPU-side wait);
* `cpuWait m` — `SetEventOnCompletion(m, ...)` + `WaitForSingleObject`
  (CPU blocks until the GPU reaches marker `m`);
* `allocReset slot marker` — `frame.mCommandAllocator->Reset()` for the
  given slot, whose stored completion marker at that moment is `marker`;
* `resizeBuffers sz` — `mSwapChain->ResizeBuffers(0, sz.mWidth, sz.mHeight, ...)`;
* `slotVisit slot` — `mFrames.at(mFrameIndex)` selecting the slot to render;
* `present` — `mSwapChain->Present(1, 0)`. -/
inductive Ev where
  | skiaSyncCpuFlush
  | queueSignal (marker : Nat)
  | skiaSignal (marker : Nat)
  | skiaGpuWait (marker : Nat)
  | cpuWait (marker : Nat)
  | allocReset (slot : Nat) (marker : Nat)
  | resizeBuffers (size : PixelSize)
  | slotVisit (slot : Nat)
  | present
deriving DecidableEq, Repr

/-- Window messages the `WindowProc` / message pump distinguish. -/
inductive Msg where
  | wmSize (size : PixelSize)
  | wmClose
  | wmQuit
  | other
deriving DecidableEq, Repr

/-- CPU-side state of the controller (`HelloSkiaWindow` in the source).
`swapChainLength` is the compile-time constant `SwapChainLength` from the
header, kept as a component so every ring size can be analyzed.
`swapChainSize` is the dimensions of the swap chain's current buffers. -/
structure HelloSkiaWindow where
  swapChainLength : Nat
  mFrames : List FrameContext
  mFenceValue : Nat
  mFrameIndex : Nat
  mFrameCounter : Nat
  mWindowSize : PixelSize
  swapChainSize : PixelSize
  mPendingResize : Option PixelSize
  mExitCode : Option Int
deriving DecidableEq, Repr

namespace HelloSkiaWindow

/-- Fresh controller after construction.  Modelled from the spec: the
header with the member initializers is not among the sources; per the
spec, markers start at zero, the ring index starts at slot 0, the frame
counter at 0, and no resize is pending.  `n` is `SwapChainLength` and
`sz` the initial swap-chain size queried via `GetDesc1`. -/
def init (n : Nat) (sz : PixelSize) : HelloSkiaWindow :=
  { swapChainLength := n
    mFrames := List.replicate n { mFenceValue := 0, mRenderTarget := some sz }
    mFenceValue := 0
    mFrameIndex := 0
    mFrameCounter := 0
    mWindowSize := sz
    swapChainSize := sz
    mPendingResize := none
    mExitCode := none }

/-- `HelloSkiaWindow::WindowProc`: `WM_SIZE` overwrites the pending
resize with the latest size; `WM_CLOSE` sets the exit code to 0;
everything else falls through to `DefWindowProcW`. -/
def WindowProc (s : HelloSkiaWindow) (m : Msg) : HelloSkiaWindow :=
  match m with
  | Msg.wmSize sz => { s with mPendingResize := some sz }
  | Msg.wmClose => { s with mExitCode := some 0 }
  | _ => s

/-- `HelloSkiaWindow::CleanupFrameContexts`: flush-and-submit the Skia
context with CPU sync, signal a fresh fence value on the queue and block
until the GPU reaches it, then release every slot's render-target
resources, zero its marker, and restart the ring at slot 0. -/
def CleanupFrameContexts (s : HelloSkiaWindow) : HelloSkiaWindow × List Ev :=
  let fenceValue := s.mFenceValue + 1
  ({ s with
      mFenceValue := fenceValue
      mFrames := s.mFrames.map fun _ => { mFenceValue := 0, mRenderTarget := none }
      mFrameIndex := 0 },
   [Ev.skiaSyncCpuFlush, Ev.queueSignal fenceValue, Ev.cpuWait fenceValue])

/-- `HelloSkiaWindow::CreateRenderTargets`: (re)acquire each slot's swap
chain buffer, render-target view and wrapped Skia surface against the
swap chain's current dimensions.  Markers are not touched. -/
def CreateRenderTargets (s : HelloSkiaWindow) : HelloSkiaWindow :=
  { s with
      mFrames := s.mFrames.map fun f => { f with mRenderTarget := some s.swapChainSize } }

/-- `HelloSkiaWindow::RenderNonSkiaContent`: record the
PRESENT→RENDER_TARGET barrier, clear, bind target and descriptor heap
(pure command recording), close and execute the list, then signal
`frame.mFenceValue` on the queue. -/
def RenderNonSkiaContent (frame : FrameContext) : List Ev :=
  [Ev.queueSignal frame.mFenceValue]

/-- `HelloSkiaWindow::RenderSkiaContent(FrameContext&)`: make the Skia
GPU context wait (GPU-side) on the slot's current marker, inform Skia of
the externally performed state transition, draw (the `SkCanvas*`
overload: a rounded rect and the frame-counter string — no controller
state change), then bump the fence counter, store the new marker in the
slot, and flush with that marker as signal semaphore; `submit` uses
`GrSyncCpu::kNo`, so no CPU wait occurs. -/
def RenderSkiaContent (s : HelloSkiaWindow) (idx : Nat) : HelloSkiaWindow × List Ev :=
  let frame := s.mFrames.getD idx default
  let waitMarker := frame.mFenceValue
  let fenceValue := s.mFenceValue + 1
  ({ s with
      mFenceValue := fenceValue
      mFrames := s.mFrames.set idx { frame with mFenceValue := fenceValue } },
   [Ev.skiaGpuWait waitMarker, Ev.skiaSignal fenceValue])

/-- `HelloSkiaWindow::RenderFrame`: apply a pending resize (cleanup,
`ResizeBuffers`, recreate targets, record the new window size, clear the
pending resize); bump the frame counter; select the current slot and
advance the ring index; if the slot's stored marker is nonzero, block
until the GPU reaches it; reset the slot's command allocator; store a
fresh marker in the slot; record+submit the non-Skia work signaling that
marker; run the Skia pass; present. -/
def RenderFrame (s : HelloSkiaWindow) : HelloSkiaWindow × List Ev :=
  let resized :=
    match s.mPendingResize with
    | some sz =>
      let cleaned := s.CleanupFrameContexts
      let sc := { cleaned.1 with swapChainSize := sz }
      let sc := sc.CreateRenderTargets
      ({ sc with mWindowSize := sz, mPendingResize := none },
       cleaned.2 ++ [Ev.resizeBuffers sz])
    | none => (s, ([] : List Ev))
  let s1 := resized.1
  let s2 := { s1 with mFrameCounter := s1.mFrameCounter + 1 }
  let idx := s2.mFrameIndex
  let frame := s2.mFrames.getD idx default
  let s3 := { s2 with mFrameIndex := (idx + 1) % s2.swapChainLength }
  let waitTrace := if frame.mFenceValue ≠ 0 then [Ev.cpuWait frame.mFenceValue] else []
  let fenceValue := s3.mFenceValue + 1
  let frame2 := { frame with mFenceValue := fenceValue }
  let s4 := { s3 with mFenceValue := fenceValue, mFrames := s3.mFrames.set idx frame2 }
  let skia := s4.RenderSkiaContent idx
  (skia.1,
   resized.2 ++ Ev.slotVisit idx :: waitTrace
     ++ Ev.allocReset idx frame.mFenceValue :: RenderNonSkiaContent frame2
     ++ skia.2 ++ [Ev.present])

/-- One iteration of the inner `PeekMessage` pump in
`HelloSkiaWindow::Run`: dispatch each message through `WindowProc`; if
the message is `WM_QUIT`, return `mExitCode.value_or(0)` immediately. -/
def PumpMessages : HelloSkiaWindow → List Msg → HelloSkiaWindow × Option Int
  | s, [] => (s, none)
  | s, m :: rest =>
    let s2 := s.WindowProc m
    if m = Msg.wmQuit then (s2, some (s2.mExitCode.getD 0))
    else PumpMessages s2 rest

/-- `HelloSkiaWindow::Run`: loop while `mExitCode` is unset; each
iteration pumps one batch of messages (returning early on `WM_QUIT`),
then renders a frame; on exit return `*mExitCode`.  The loop is driven by
a script listing the message batch delivered at each iteration; an empty
result `none` means the script ran out while the loop was still running.
The frame-rate-capping `MsgWaitForMultipleObjects` sleep has no state
effect and is omitted. -/
def Run : HelloSkiaWindow → List (List Msg) → HelloSkiaWindow × Option Int × List Ev
  | s, script =>
    match s.mExitCode with
    | some code => (s, some code, [])
    | none =>
      match script with
      | [] => (s, none, [])
      | batch :: rest =>
        match PumpMessages s batch with
        | (s2, some code) => (s2, some code, [])
        | (s2, none) =>
          let stepped := s2.RenderFrame
          let tail := Run stepped.1 rest
          (tail.1, tail.2.1, stepped.2 ++ tail.2.2)

end HelloSkiaWindow

/-- External stimuli over the controller's lifetime: a `RenderFrame`
call, a window message delivered to `WindowProc`, or the explicit
quiescence of `CleanupFrameContexts` (destructor / pre-resize path). -/
inductive Op where
  | opRenderFrame
  | opMessage (m : Msg)
  | opCleanup
deriving DecidableEq, Repr

/-- Effect of one stimulus on the controller state, with its trace. -/
def HelloSkiaWindow.step (s : HelloSkiaWindow) : Op → HelloSkiaWindow × List Ev
  | Op.opRenderFrame => s.RenderFrame
  | Op.opMessage m => (s.WindowProc m, [])
  | Op.opCleanup => s.CleanupFrameContexts

/-- Run a whole lifetime of stimuli, concatenating the traces. -/
def HelloSkiaWindow.runOps : HelloSkiaWindow → List Op → HelloSkiaWindow × List Ev
  | s, [] => (s, [])
  | s, op :: rest =>
    let stepped := s.step op
    let tail := HelloSkiaWindow.runOps stepped.1 rest
    (tail.1, stepped.2 ++ tail.2)

/-- Iterate `RenderFrame` `k` times, concatenating the traces. -/
def iterRenderFrame : HelloSkiaWindow → Nat → HelloSkiaWindow × List Ev
  | s, 0 => (s, [])
  | s, k + 1 =>
    let stepped := s.RenderFrame
    let tail := iterRenderFrame stepped.1 k
    (tail.1, stepped.2 ++ tail.2)

/-- Iterate `RenderFrame` `k` times, keeping each call's trace separate. -/
def iterTraces : HelloSkiaWindow → Nat → List (List Ev)
  | _, 0 => []
  | s, k + 1 =>
    let stepped := s.RenderFrame
    stepped.2 :: iterTraces stepped.1 k

/-- Markers signaled on the shared queue, in trace order: the non-Skia
`Signal`, the Skia flush semaphore, and the cleanup quiescence `Signal`. -/
def signalMarkers : List Ev → List Nat
  | [] => []
  | Ev.queueSignal m :: rest => m :: signalMarkers rest
  | Ev.skiaSignal m :: rest => m :: signalMarkers rest
  | _ :: rest => signalMarkers rest

/-- Ring slots selected by successive `RenderFrame` calls, in order. -/
def slotVisits : List Ev → List Nat
  | [] => []
  | Ev.slotVisit i :: rest => i :: slotVisits rest
  | _ :: rest => slotVisits rest

/-- Whether an event is a queue submission signal (either path). -/
def isSignalEv : Ev → Bool
  | Ev.queueSignal _ => true
  | Ev.skiaSignal _ => true
  | _ => false

/-- Whether an event is a swap-chain `ResizeBuffers` call. -/
def isResizeEv : Ev → Bool
  | Ev.resizeBuffers _ => true
  | _ => false

/-- The resize prologue of `RenderFrame` (after the cleanup): set the
new swap-chain size via `ResizeBuffers`, recreate the render targets,
record the new window size and clear the pending resize. -/
def applyResize (s : HelloSkiaWindow) (sz : PixelSize) : HelloSkiaWindow :=
  { HelloSkiaWindow.CreateRenderTargets
      { (s.CleanupFrameContexts).1 with swapChainSize := sz } with
    mWindowSize := sz
    mPendingResize := none }

/-- Strictly increasing markers, all within the window `(lo, hi]`. -/
def SignalsBounded (lo hi : Nat) (l : List Nat) : Prop :=
  List.Pairwise (· < ·) l ∧ ∀ m ∈ l, lo < m ∧ m ≤ hi

/-- Allocator resets are guarded: whenever a slot's command allocator is
reset, the slot's stored completion marker at that moment is zero, or
the CPU earlier in the trace blocked until the GPU reached exactly that
marker. -/
def AllocResetSafe (tr : List Ev) : Prop :=
  ∀ (i slot marker : Nat), tr[i]? = some (Ev.allocReset slot marker) →
    marker = 0 ∨ ∃ j : Nat, j < i ∧ tr[j]? = some (Ev.cpuWait marker)

/-- Every slot's stored completion marker was issued from the shared
fence counter, so it never exceeds the counter.  This holds in every
reachable state (`runOps_markersBounded`). -/
def MarkersBounded (s : HelloSkiaWindow) : Prop :=
  ∀ f ∈ s.mFrames, f.mFenceValue ≤ s.mFenceValue

/-- Deliver a burst of `WM_SIZE` notifications, in order, between two
`RenderFrame` calls. -/
def applyNotifications (s : HelloSkiaWindow) (szs : List PixelSize) : HelloSkiaWindow :=
  szs.foldl (fun t sz => t.WindowProc (Msg.wmSize sz)) s

/-- One native (Win32 / DXGI / D3D12 / COM) API call site in the source.
`fallible` records whether the call reports failure through its return
value (HRESULT, atom, handle, or wait status); `checkedImmediately`
records whether the source inspects that value right at the call site
(via `CheckHResult` or an equivalent immediate test). -/
structure NativeCall where
  fn : String
  caller : String
  line : Nat
  fallible : Bool
  checkedImmediately : Bool
deriving DecidableEq, Repr

/-- Every native API call site of `Win32-Ganesh-D3D12.cpp`, transcribed
from the source (Skia library calls are not native API calls and are not
listed; void-returning command-recording calls are listed as
infallible). -/
def nativeCalls : List NativeCall :=
  [⟨"SHGetKnownFolderPath", "GetKnownFolderPath", 48, true, true⟩,
   ⟨"GetSystemMetrics", "HelloSkiaWindow::CreateNativeWindow", 66, false, false⟩,
   ⟨"RegisterClassW", "HelloSkiaWindow::CreateNativeWindow", 75, true, false⟩,
   ⟨"CreateWindowExW", "HelloSkiaWindow::CreateNativeWindow", 76, true, true⟩,
   ⟨"D3D12GetDebugInterface", "HelloSkiaWindow::InitializeD3D", 98, true, true⟩,
   ⟨"CreateDXGIFactory2", "HelloSkiaWindow::InitializeD3D", 110, true, true⟩,
   ⟨"IDXGIFactory4::EnumAdapters1", "HelloSkiaWindow::InitializeD3D", 113, true, true⟩,
   ⟨"D3D12CreateDevice", "HelloSkiaWindow::InitializeD3D", 116, true, true⟩,
   ⟨"ID3D12Device::CreateFence", "HelloSkiaWindow::InitializeD3D", 120, true, true⟩,
   ⟨"ID3D12Device::CreateCommandQueue", "HelloSkiaWindow::InitializeD3D", 128, true, true⟩,
   ⟨"ID3D12Device::CreateDescriptorHeap", "HelloSkiaWindow::InitializeD3D", 138, true, true⟩,
   ⟨"ID3D12Device::CreateDescriptorHeap", "HelloSkiaWindow::InitializeD3D", 148, true, true⟩,
   ⟨"IDXGIFactory2::CreateSwapChainForHwnd", "HelloSkiaWindow::InitializeD3D", 163, true, true⟩,
   ⟨"IDXGISwapChain1::GetDesc1", "HelloSkiaWindow::InitializeD3D", 170, true, true⟩,
   ⟨"ID3D12Device::CreateCommandAllocator", "HelloSkiaWindow::CreateCommandListAndAllocators", 194, true, true⟩,
   ⟨"ID3D12Device::CreateCommandList", "HelloSkiaWindow::CreateCommandListAndAllocators", 199, true, true⟩,
   ⟨"ID3D12GraphicsCommandList::Close", "HelloSkiaWindow::CreateCommandListAndAllocators", 205, true, true⟩,
   ⟨"ID3D12InfoQueue1::SetBreakOnSeverity", "HelloSkiaWindow::ConfigureD3DDebugLayer", 215, true, false⟩,
   ⟨"ID3D12InfoQueue1::SetBreakOnSeverity", "HelloSkiaWindow::ConfigureD3DDebugLayer", 216, true, false⟩,
   ⟨"ID3D12InfoQueue1::SetBreakOnSeverity", "HelloSkiaWindow::ConfigureD3DDebugLayer", 217, true, false⟩,
   ⟨"ID3D12InfoQueue1::SetBreakOnID", "HelloSkiaWindow::ConfigureD3DDebugLayer", 225, true, false⟩,
   ⟨"ID3D12InfoQueue1::PushStorageFilter", "HelloSkiaWindow::ConfigureD3DDebugLayer", 244, true, true⟩,
   ⟨"IDXGISwapChain1::GetBuffer", "HelloSkiaWindow::CreateRenderTargets", 261, true, true⟩,
   ⟨"ID3D12Resource::SetName", "HelloSkiaWindow::CreateRenderTargets", 262, true, false⟩,
   ⟨"ID3D12Device::CreateRenderTargetView", "HelloSkiaWindow::CreateRenderTargets", 265, false, false⟩,
   ⟨"IDXGISwapChain1::GetDesc1", "HelloSkiaWindow::CreateRenderTargets", 269, true, false⟩,
   ⟨"ID3D12GraphicsCommandList::ResourceBarrier", "HelloSkiaWindow::RenderNonSkiaContent", 310, false, false⟩,
   ⟨"ID3D12GraphicsCommandList::ClearRenderTargetView", "HelloSkiaWindow::RenderNonSkiaContent", 313, false, false⟩,
   ⟨"ID3D12GraphicsCommandList::OMSetRenderTargets", "HelloSkiaWindow::RenderNonSkiaContent", 315, false, false⟩,
   ⟨"ID3D12GraphicsCommandList::SetDescriptorHeaps", "HelloSkiaWindow::RenderNonSkiaContent", 318, false, false⟩,
   ⟨"ID3D12GraphicsCommandList::Close", "HelloSkiaWindow::RenderNonSkiaContent", 320, true, true⟩,
   ⟨"ID3D12CommandQueue::ExecuteCommandLists", "HelloSkiaWindow::RenderNonSkiaContent", 323, false, false⟩,
   ⟨"ID3D12CommandQueue::Signal", "HelloSkiaWindow::RenderNonSkiaContent", 324, true, true⟩,
   ⟨"IDXGISwapChain1::ResizeBuffers", "HelloSkiaWindow::RenderFrame", 394, true, true⟩,
   ⟨"ID3D12Fence::SetEventOnCompletion", "HelloSkiaWindow::RenderFrame", 412, true, false⟩,
   ⟨"WaitForSingleObject", "HelloSkiaWindow::RenderFrame", 413, true, false⟩,
   ⟨"ID3D12CommandAllocator::Reset", "HelloSkiaWindow::RenderFrame", 415, true, true⟩,
   ⟨"ID3D12GraphicsCommandList::Reset", "HelloSkiaWindow::RenderFrame", 417, true, true⟩,
   ⟨"IDXGISwapChain1::Present", "HelloSkiaWindow::RenderFrame", 422, true, true⟩,
   ⟨"PeekMessageW", "HelloSkiaWindow::Run", 432, false, false⟩,
   ⟨"TranslateMessage", "HelloSkiaWindow::Run", 433, false, false⟩,
   ⟨"DispatchMessageW", "HelloSkiaWindow::Run", 434, false, false⟩,
   ⟨"MsgWaitForMultipleObjects", "HelloSkiaWindow::Run", 449, true, false⟩,
   ⟨"DefWindowProcW", "HelloSkiaWindow::WindowProc", 470, false, false⟩,
   ⟨"ID3D12CommandQueue::Signal", "HelloSkiaWindow::CleanupFrameContexts", 477, true, true⟩,
   ⟨"ID3D12Fence::SetEventOnCompletion", "HelloSkiaWindow::CleanupFrameContexts", 478, true, true⟩,
   ⟨"WaitForSingleObject", "HelloSkiaWindow::CleanupFrameContexts", 479, true, false⟩,
   ⟨"CoInitializeEx", "wWinMain", 498, true, false⟩,
   ⟨"ShowWindow", "wWinMain", 500, false, false⟩]

/-- `CheckHResult`: succeed silently on `SUCCEEDED(ret)` (`0 ≤ ret` for
an HRESULT); otherwise emit one diagnostic line to the debug channel
(`OutputDebugStringA`) and raise (`throw std::system_error`), modelled
as `Except.error`.  No retry, recovery or degraded mode exists: the
error propagates out of the program. -/
def CheckHResult (ret : Int) : List String × Except Int Unit :=
  if 0 ≤ ret then ([], Except.ok ())
  else (["HRESULT failed: " ++ toString ret], Except.error ret)

/-! ### Generic list helpers -/

theorem signalMarkers_append (a b : List Ev) :
    signalMarkers (a ++ b) = signalMarkers a ++ signalMarkers b := by
  induction a with
  | nil => rfl
  | cons e rest ih => cases e <;> simp [signalMarkers, ih]

theorem slotVisits_append (a b : List Ev) :
    slotVisits (a ++ b) = slotVisits a ++ slotVisits b := by
  induction a with
  | nil => rfl
  | cons e rest ih => cases e <;> simp [slotVisits, ih]

theorem getD_set_self {α : Type} : ∀ (l : List α) (i : Nat) (a d : α),
    i < l.length → (l.set i a).getD i d = a
  | _ :: _, 0, _, _, _ => rfl
  | _ :: t, i + 1, a, d, h =>
    getD_set_self t i a d (by simpa using h)

theorem getD_map_fence (l : List FrameContext) (g : FrameContext → FrameContext)
    (h : ∀ x, (g x).mFenceValue = 0) :
    ∀ i : Nat, ((l.map g).getD i default).mFenceValue = 0 := by
  induction l with
  | nil => intro i; cases i <;> rfl
  | cons a t ih =>
    intro i
    cases i with
    | zero => simpa using h a
    | succ j => simpa using ih j

/-! ### Shape of a `RenderFrame` call -/

/-- A `RenderFrame` call that applies a pending resize is the cleanup,
the `ResizeBuffers` call, and then exactly a `RenderFrame` call on the
post-resize state (which has no pending resize). -/
theorem RenderFrame_resize_decompose (s : HelloSkiaWindow) (sz : PixelSize)
    (h : s.mPendingResize = some sz) :
    (s.RenderFrame).1 = ((applyResize s sz).RenderFrame).1 ∧
    (s.RenderFrame).2 =
      (s.CleanupFrameContexts).2 ++ Ev.resizeBuffers sz :: ((applyResize s sz).RenderFrame).2 := by
  constructor <;>
    simp [HelloSkiaWindow.RenderFrame, applyResize, h, HelloSkiaWindow.CleanupFrameContexts,
      HelloSkiaWindow.CreateRenderTargets, HelloSkiaWindow.RenderSkiaContent,
      HelloSkiaWindow.RenderNonSkiaContent]

/-- Field bookkeeping of the resize prologue. -/
theorem applyResize_fields (s : HelloSkiaWindow) (sz : PixelSize) :
    (applyResize s sz).mPendingResize = none ∧
    (applyResize s sz).mFrameIndex = 0 ∧
    (applyResize s sz).mFenceValue = s.mFenceValue + 1 ∧
    (applyResize s sz).swapChainLength = s.swapChainLength ∧
    (applyResize s sz).mFrames.length = s.mFrames.length ∧
    (applyResize s sz).mExitCode = s.mExitCode := by
  simp [applyResize, HelloSkiaWindow.CleanupFrameContexts, HelloSkiaWindow.CreateRenderTargets]

/-- Every slot's marker is zero right after the resize prologue. -/
theorem applyResize_fence_zero (s : HelloSkiaWindow) (sz : PixelSize) (i : Nat) :
    ((applyResize s sz).mFrames.getD i default).mFenceValue = 0 := by
  simp only [applyResize, HelloSkiaWindow.CleanupFrameContexts,
    HelloSkiaWindow.CreateRenderTargets, List.map_map]
  exact getD_map_fence _ _ (fun x => rfl) i

/-- Trace of a `RenderFrame` call with no pending resize and an in-range
ring index. -/
theorem RenderFrame_trace_none (s : HelloSkiaWindow) (h : s.mPendingResize = none)
    (hidx : s.mFrameIndex < s.mFrames.length) :
    (s.RenderFrame).2 =
      Ev.slotVisit s.mFrameIndex
        :: ((if (s.mFrames.getD s.mFrameIndex default).mFenceValue ≠ 0
             then [Ev.cpuWait (s.mFrames.getD s.mFrameIndex default).mFenceValue]
             else [])
          ++ [Ev.allocReset s.mFrameIndex (s.mFrames.getD s.mFrameIndex default).mFenceValue,
              Ev.queueSignal (s.mFenceValue + 1),
              Ev.skiaGpuWait (s.mFenceValue + 1),
              Ev.skiaSignal (s.mFenceValue + 2),
              Ev.present]) := by
  simp only [HelloSkiaWindow.RenderFrame, HelloSkiaWindow.RenderSkiaContent,
    HelloSkiaWindow.RenderNonSkiaContent, h]
  rw [getD_set_self _ _ _ _ hidx]
  simp

/-- Queue signals of a no-resize `RenderFrame` call: the non-Skia marker
then the Skia flush marker. -/
theorem RenderFrame_signals_none (s : HelloSkiaWindow) (h : s.mPendingResize = none) :
    signalMarkers (s.RenderFrame).2 = [s.mFenceValue + 1, s.mFenceValue + 2] := by
  simp only [HelloSkiaWindow.RenderFrame, HelloSkiaWindow.RenderSkiaContent,
    HelloSkiaWindow.RenderNonSkiaContent, h]
  split <;> simp [signalMarkers, signalMarkers_append]

/-- Queue signals of a resize-applying `RenderFrame` call: the
quiescence marker, then the two per-frame markers. -/
theorem RenderFrame_signals_some (s : HelloSkiaWindow) (sz : PixelSize)
    (h : s.mPendingResize = some sz) :
    signalMarkers (s.RenderFrame).2 =
      [s.mFenceValue + 1, s.mFenceValue + 2, s.mFenceValue + 3] := by
  rw [(RenderFrame_resize_decompose s sz h).2, signalMarkers_append]
  rw [show (Ev.resizeBuffers sz :: ((applyResize s sz).RenderFrame).2)
        = [Ev.resizeBuffers sz] ++ ((applyResize s sz).RenderFrame).2 from rfl,
    signalMarkers_append,
    RenderFrame_signals_none _ (applyResize_fields s sz).1,
    (applyResize_fields s sz).2.2.1]
  rfl

/-- `RenderFrame` advances the fence counter by two (no resize). -/
theorem RenderFrame_mFenceValue_none (s : HelloSkiaWindow) (h : s.mPendingResize = none) :
    (s.RenderFrame).1.mFenceValue = s.mFenceValue + 2 := by
  simp [HelloSkiaWindow.RenderFrame, HelloSkiaWindow.RenderSkiaContent, h]

/-- `RenderFrame` advances the fence counter by three when resizing. -/
theorem RenderFrame_mFenceValue_some (s : HelloSkiaWindow) (sz : PixelSize)
    (h : s.mPendingResize = some sz) :
    (s.RenderFrame).1.mFenceValue = s.mFenceValue + 3 := by
  rw [(RenderFrame_resize_decompose s sz h).1,
    RenderFrame_mFenceValue_none _ (applyResize_fields s sz).1,
    (applyResize_fields s sz).2.2.1]

/-- `RenderFrame` never touches the exit code. -/
theorem RenderFrame_mExitCode (s : HelloSkiaWindow) :
    (s.RenderFrame).1.mExitCode = s.mExitCode := by
  cases h : s.mPendingResize <;>
    simp [HelloSkiaWindow.RenderFrame, HelloSkiaWindow.RenderSkiaContent,
      HelloSkiaWindow.CleanupFrameContexts, HelloSkiaWindow.CreateRenderTargets, h]

/-- `RenderFrame` never changes the ring length. -/
theorem RenderFrame_swapChainLength (s : HelloSkiaWindow) :
    (s.RenderFrame).1.swapChainLength = s.swapChainLength := by
  cases h : s.mPendingResize <;>
    simp [HelloSkiaWindow.RenderFrame, HelloSkiaWindow.RenderSkiaContent,
      HelloSkiaWindow.CleanupFrameContexts, HelloSkiaWindow.CreateRenderTargets, h]

/-- After any `RenderFrame` call no resize is pending. -/
theorem RenderFrame_mPendingResize (s : HelloSkiaWindow) :
    (s.RenderFrame).1.mPendingResize = none := by
  cases h : s.mPendingResize <;>
    simp [HelloSkiaWindow.RenderFrame, HelloSkiaWindow.RenderSkiaContent,
      HelloSkiaWindow.CleanupFrameContexts, HelloSkiaWindow.CreateRenderTargets, h]

/-- `RenderFrame` preserves the number of frame slots. -/
theorem RenderFrame_mFrames_length (s : HelloSkiaWindow) :
    (s.RenderFrame).1.mFrames.length = s.mFrames.length := by
  cases h : s.mPendingResize <;>
    simp [HelloSkiaWindow.RenderFrame, HelloSkiaWindow.RenderSkiaContent,
      HelloSkiaWindow.CleanupFrameContexts, HelloSkiaWindow.CreateRenderTargets, h]

/-- `RenderFrame` advances the ring index by one modulo the ring size
when no resize is pending. -/
theorem RenderFrame_mFrameIndex_none (s : HelloSkiaWindow) (h : s.mPendingResize = none) :
    (s.RenderFrame).1.mFrameIndex = (s.mFrameIndex + 1) % s.swapChainLength := by
  simp [HelloSkiaWindow.RenderFrame, HelloSkiaWindow.RenderSkiaContent, h]

/-- Slots visited by a no-resize `RenderFrame` call. -/
theorem RenderFrame_visits_none (s : HelloSkiaWindow) (h : s.mPendingResize = none) :
    slotVisits (s.RenderFrame).2 = [s.mFrameIndex] := by
  simp only [HelloSkiaWindow.RenderFrame, HelloSkiaWindow.RenderSkiaContent,
    HelloSkiaWindow.RenderNonSkiaContent, h]
  split <;> simp [slotVisits, slotVisits_append]

/-- `WindowProc` never touches the fence counter. -/
theorem WindowProc_mFenceValue (s : HelloSkiaWindow) (m : Msg) :
    (s.WindowProc m).mFenceValue = s.mFenceValue := by
  cases m <;> rfl

/-! ### Marker monotonicity (C2) -/

/-- Each stimulus signals strictly increasing markers, all above the
fence counter before it and at most the fence counter after it. -/
theorem step_signals_bounded (s : HelloSkiaWindow) (op : Op) :
    SignalsBounded s.mFenceValue (s.step op).1.mFenceValue (signalMarkers (s.step op).2) := by
  cases op with
  | opRenderFrame =>
    cases h : s.mPendingResize with
    | none =>
      refine ⟨?_, ?_⟩ <;>
        simp [HelloSkiaWindow.step, RenderFrame_signals_none s h,
          RenderFrame_mFenceValue_none s h]
    | some sz =>
      refine ⟨?_, ?_⟩ <;>
        simp [HelloSkiaWindow.step, RenderFrame_signals_some s sz h,
          RenderFrame_mFenceValue_some s sz h]
  | opMessage m =>
    exact ⟨List.Pairwise.nil, by simp [HelloSkiaWindow.step, signalMarkers]⟩
  | opCleanup =>
    refine ⟨?_, ?_⟩ <;>
      simp [HelloSkiaWindow.step, HelloSkiaWindow.CleanupFrameContexts, signalMarkers]

/-- The fence counter never decreases under any stimulus. -/
theorem step_mFenceValue_mono (s : HelloSkiaWindow) (op : Op) :
    s.mFenceValue ≤ (s.step op).1.mFenceValue := by
  cases op with
  | opRenderFrame =>
    cases h : s.mPendingResize with
    | none => simp [HelloSkiaWindow.step, RenderFrame_mFenceValue_none s h]
    | some sz => simp [HelloSkiaWindow.step, RenderFrame_mFenceValue_some s sz h]
  | opMessage m => simp [HelloSkiaWindow.step, WindowProc_mFenceValue]
  | opCleanup => simp [HelloSkiaWindow.step, HelloSkiaWindow.CleanupFrameContexts]

/-- The fence counter never decreases over a whole lifetime. -/
theorem runOps_mFenceValue_mono : ∀ (ops : List Op) (s : HelloSkiaWindow),
    s.mFenceValue ≤ (HelloSkiaWindow.runOps s ops).1.mFenceValue := by
  intro ops
  induction ops with
  | nil => intro s; simp [HelloSkiaWindow.runOps]
  | cons op rest ih =>
    intro s
    have h1 := step_mFenceValue_mono s op
    have h2 := ih (s.step op).1
    simp only [HelloSkiaWindow.runOps]
    omega

/-- Over a whole lifetime the signaled markers are strictly increasing
and bounded by the fence-counter window. -/
theorem runOps_signals_bounded : ∀ (ops : List Op) (s : HelloSkiaWindow),
    SignalsBounded s.mFenceValue (HelloSkiaWindow.runOps s ops).1.mFenceValue
      (signalMarkers (HelloSkiaWindow.runOps s ops).2) := by
  intro ops
  induction ops with
  | nil => exact fun s => ⟨List.Pairwise.nil, by simp [HelloSkiaWindow.runOps, signalMarkers]⟩
  | cons op rest ih =>
    intro s
    have hstep := step_signals_bounded s op
    have hrest := ih (s.step op).1
    have hmono := step_mFenceValue_mono s op
    have hmono2 := runOps_mFenceValue_mono rest (s.step op).1
    simp only [HelloSkiaWindow.runOps, signalMarkers_append]
    constructor
    · rw [List.pairwise_append]
      refine ⟨hstep.1, hrest.1, ?_⟩
      intro a ha b hb
      have h1 := hstep.2 a ha
      have h2 := hrest.2 b hb
      omega
    · intro m hm
      rcases List.mem_append.mp hm with hm | hm
      · have h1 := hstep.2 m hm
        omega
      · have h1 := hrest.2 m hm
        omega

/-! ### Allocator-reset safety (C1) -/

/-- The rendering part of any `RenderFrame` trace resets the allocator
only under the guard: marker zero, or an immediately preceding CPU wait
on exactly that marker. -/
theorem allocResetSafe_shape (idx m a w b : Nat) :
    AllocResetSafe (Ev.slotVisit idx
      :: ((if m ≠ 0 then [Ev.cpuWait m] else [])
        ++ [Ev.allocReset idx m, Ev.queueSignal a, Ev.skiaGpuWait w,
            Ev.skiaSignal b, Ev.present])) := by
  by_cases hm : m = 0
  · intro i slot marker h
    rw [if_neg (not_not_intro hm)] at h ⊢
    rcases i with _ | _ | _ | _ | _ | _ | i
    · simp at h
    · simp at h
      exact Or.inl (hm ▸ h.2.symm)
    · simp at h
    · simp at h
    · simp at h
    · simp at h
    · simp at h
  · intro i slot marker h
    rw [if_pos hm] at h ⊢
    rcases i with _ | _ | _ | _ | _ | _ | _ | i
    · simp at h
    · simp at h
    · simp at h
      obtain ⟨h1, h2⟩ := h
      subst h2
      exact Or.inr ⟨1, by omega, by simp⟩
    · simp at h
    · simp at h
    · simp at h
    · simp at h
    · simp at h

/-- `List.getD` beyond the length falls back to the default. -/
theorem getD_of_le {α : Type} : ∀ (l : List α) (i : Nat) (d : α),
    l.length ≤ i → l.getD i d = d
  | [], _, _, _ => rfl
  | _ :: _, 0, _, h => absurd h (by simp)
  | _ :: t, i + 1, d, h => getD_of_le t i d (by simpa using h)

/-- `List.set` beyond the length is the identity. -/
theorem set_of_le {α : Type} : ∀ (l : List α) (i : Nat) (a : α),
    l.length ≤ i → l.set i a = l
  | [], _, _, _ => rfl
  | _ :: _, 0, _, h => absurd h (by simp)
  | x :: t, i + 1, a, h => by
    simpa [List.set] using set_of_le t i a (by simpa using h)

/-- Prepending events that contain no allocator reset preserves
allocator-reset safety. -/
theorem allocResetSafe_append_left (pre tr : List Ev)
    (hpre : ∀ slot marker, Ev.allocReset slot marker ∉ pre)
    (h : AllocResetSafe tr) : AllocResetSafe (pre ++ tr) := by
  intro i slot marker hi
  by_cases hlt : i < pre.length
  · rw [List.getElem?_append_left hlt] at hi
    exact absurd (List.getElem?_mem hi) (hpre slot marker)
  · push_neg at hlt
    rw [List.getElem?_append_right hlt] at hi
    rcases h (i - pre.length) slot marker hi with h0 | ⟨j, hj, hjw⟩
    · exact Or.inl h0
    · refine Or.inr ⟨pre.length + j, by omega, ?_⟩
      rw [List.getElem?_append_right (by omega)]
      simpa using hjw

/-- Trace of a no-resize `RenderFrame` call whose ring index is out of
range (the source would throw in `mFrames.at`; the embedding reads the
default slot, whose marker is zero). -/
theorem RenderFrame_trace_none_oob (s : HelloSkiaWindow) (h : s.mPendingResize = none)
    (hidx : s.mFrames.length ≤ s.mFrameIndex) :
    (s.RenderFrame).2 =
      [Ev.slotVisit s.mFrameIndex, Ev.allocReset s.mFrameIndex 0,
       Ev.queueSignal (s.mFenceValue + 1), Ev.skiaGpuWait 0,
       Ev.skiaSignal (s.mFenceValue + 2), Ev.present] := by
  have hd : (default : FrameContext).mFenceValue = 0 := rfl
  simp only [HelloSkiaWindow.RenderFrame, HelloSkiaWindow.RenderSkiaContent,
    HelloSkiaWindow.RenderNonSkiaContent, h]
  rw [getD_of_le _ _ _ hidx, set_of_le _ _ _ hidx, getD_of_le _ _ _ hidx]
  simp [hd]

/-- Any no-resize `RenderFrame` call is allocator-reset safe. -/
theorem allocResetSafe_renderFrame_none (s : HelloSkiaWindow)
    (h : s.mPendingResize = none) : AllocResetSafe (s.RenderFrame).2 := by
  by_cases hidx : s.mFrameIndex < s.mFrames.length
  · rw [RenderFrame_trace_none s h hidx]
    exact allocResetSafe_shape s.mFrameIndex _ _ _ _
  · push_neg at hidx
    rw [RenderFrame_trace_none_oob s h hidx]
    have h0 := allocResetSafe_shape s.mFrameIndex 0 (s.mFenceValue + 1) 0 (s.mFenceValue + 2)
    simpa using h0

/-! ### Claim theorems -/

/-- C2: the completion-marker counter is strictly increasing across the
controller's whole lifetime: over any sequence of stimuli from a fresh
controller (any ring size), every marker issued on the queue — by the
non-library submission, the library flush, or the quiescence signal of
`CleanupFrameContexts` — is strictly greater than every previously
issued marker; no value is reused and the sequence never decreases. -/
theorem C2_markers_strictly_increasing (n : Nat) (sz : PixelSize) (ops : List Op) :
    List.Pairwise (· < ·)
      (signalMarkers (HelloSkiaWindow.runOps (HelloSkiaWindow.init n sz) ops).2) :=
  (runOps_signals_bounded ops (HelloSkiaWindow.init n sz)).1

/-- C4: from a fresh controller with ring size 2, five `RenderFrame`
calls with no resizes produce per call exactly two queue signals — the
non-library `Signal` then the library flush semaphore — ten signals in
total carrying the strictly increasing marker sequence 1..10, and the
slot visitation order is [0, 1, 0, 1, 0]. -/
theorem C4_fresh_ring2_five_frames :
    (iterTraces (HelloSkiaWindow.init 2 ⟨400, 600⟩) 5).map (fun tr => tr.filter isSignalEv)
        = [[Ev.queueSignal 1, Ev.skiaSignal 2], [Ev.queueSignal 3, Ev.skiaSignal 4],
           [Ev.queueSignal 5, Ev.skiaSignal 6], [Ev.queueSignal 7, Ev.skiaSignal 8],
           [Ev.queueSignal 9, Ev.skiaSignal 10]]
      ∧ signalMarkers (iterRenderFrame (HelloSkiaWindow.init 2 ⟨400, 600⟩) 5).2
          = [1, 2, 3, 4, 5, 6, 7, 8, 9, 10]
      ∧ List.Pairwise (· < ·)
          (signalMarkers (iterRenderFrame (HelloSkiaWindow.init 2 ⟨400, 600⟩) 5).2)
      ∧ slotVisits (iterRenderFrame (HelloSkiaWindow.init 2 ⟨400, 600⟩) 5).2 = [0, 1, 0, 1, 0] := by
  refine ⟨by decide, by decide, by decide, by decide⟩

/-- C8 counterexample: not every fallible native API call is checked
for failure — `ID3D12Fence::SetEventOnCompletion` in
`HelloSkiaWindow::RenderFrame` (line 412) returns an HRESULT that the
source discards, so the claim as stated is false. -/
theorem C8_counterexample :
    (⟨"ID3D12Fence::SetEventOnCompletion", "HelloSkiaWindow::RenderFrame", 412, true,
        false⟩ : NativeCall) ∈ nativeCalls
      ∧ ¬ (∀ c ∈ nativeCalls, c.fallible = true → c.checkedImmediately = true) := by
  constructor
  · decide
  · decide

/-- C8 amended: every native call the program does check is fatal on
failure — `CheckHResult` succeeds silently exactly on `SUCCEEDED`
values, and on any failing HRESULT emits one diagnostic to the debug
channel and raises an error that unwinds with no retry, recovery or
degraded mode; the calls marked `checkedImmediately` in the transcribed
call table are exactly fallible calls.  (Several fallible calls —
`SetEventOnCompletion` at line 412, `GetDesc1` at line 269, `SetName`,
`WaitForSingleObject`, `MsgWaitForMultipleObjects`, `CoInitializeEx`,
`RegisterClassW`, and the debug-layer configuration calls — have their
results discarded.) -/
theorem C8_amended_fail_fast :
    (∀ ret : Int, 0 ≤ ret → CheckHResult ret = ([], Except.ok ()))
      ∧ (∀ ret : Int, ret < 0 →
          (CheckHResult ret).2 = Except.error ret ∧ (CheckHResult ret).1.length = 1)
      ∧ (∀ c ∈ nativeCalls, c.checkedImmediately = true → c.fallible = true) := by
  refine ⟨?_, ?_, by decide⟩
  · intro ret h
    simp [CheckHResult, h]
  · intro ret h
    have h2 : ¬ (0 ≤ ret) := by omega
    simp [CheckHResult, h2]

/-- C8 witness: `CheckHResult` at the concrete success 3 and failure -5. -/
theorem C8_amended_fail_fast_witness :
    CheckHResult 3 = ([], Except.ok ())
      ∧ (CheckHResult (-5)).2 = Except.error (-5) :=
  ⟨C8_amended_fail_fast.1 3 (by norm_num),
   (C8_amended_fail_fast.2.1 (-5) (by norm_num)).1⟩

/-- C1: in every `RenderFrame` call, the slot's command allocator is
reset only after the slot's stored completion marker is zero, or the CPU
has blocked until the GPU reached exactly that marker (the
`SetEventOnCompletion` / `WaitForSingleObject` pair earlier in the same
trace); the reset never happens while the previously-recorded marker is
unreached. -/
theorem C1_alloc_reset_guarded (s : HelloSkiaWindow) : AllocResetSafe (s.RenderFrame).2 := by
  cases h : s.mPendingResize with
  | none => exact allocResetSafe_renderFrame_none s h
  | some sz =>
    rw [(RenderFrame_resize_decompose s sz h).2,
      show (s.CleanupFrameContexts).2 ++ Ev.resizeBuffers sz :: ((applyResize s sz).RenderFrame).2
          = ((s.CleanupFrameContexts).2 ++ [Ev.resizeBuffers sz])
            ++ ((applyResize s sz).RenderFrame).2 by simp]
    refine allocResetSafe_append_left _ _ ?_ ?_
    · intro slot marker
      simp [HelloSkiaWindow.CleanupFrameContexts]
    · exact allocResetSafe_renderFrame_none _ (applyResize_fields s sz).1

/-- Round-robin invariant: from any no-pending-resize state with ring
index `i < n`, `k` successive `RenderFrame` calls visit slots
`i, i+1, ..., i+k-1` modulo `n`. -/
theorem iter_visits : ∀ (k : Nat) (s : HelloSkiaWindow) (i n : Nat),
    s.mPendingResize = none → s.mFrameIndex = i → s.swapChainLength = n → i < n →
    slotVisits (iterRenderFrame s k).2 = (List.range k).map (fun j => (i + j) % n) := by
  intro k
  induction k with
  | zero => intro s i n _ _ _ _; simp [iterRenderFrame, slotVisits]
  | succ k ih =>
    intro s i n hp hi hn hlt
    have hn0 : 0 < n := by omega
    have hvis := RenderFrame_visits_none s hp
    have hrest := ih (s.RenderFrame).1 ((i + 1) % n) n
      (RenderFrame_mPendingResize s)
      (by rw [RenderFrame_mFrameIndex_none s hp, hi, hn])
      (by rw [RenderFrame_swapChainLength s, hn])
      (Nat.mod_lt _ hn0)
    simp only [iterRenderFrame, slotVisits_append, hvis, hrest, hi]
    rw [List.range_succ_eq_map, List.map_cons, List.map_map]
    refine List.cons_eq_cons.mpr ⟨by simpa using (Nat.mod_eq_of_lt hlt).symm, ?_⟩
    refine List.map_congr_left ?_
    intro j hj
    simp only [Function.comp_apply]
    rw [Nat.mod_add_mod]
    congr 1
    omega

/-- C3: for every ring size `n ≥ 2`, successive `RenderFrame` calls on a
fresh controller with no intervening resize visit the frame slots in
strict round-robin order with period `n`, starting from slot 0: the
`k`-call visitation sequence is `0, 1, ..., k-1` modulo `n`. -/
theorem C3_round_robin (n : Nat) (sz : PixelSize) (k : Nat) (h : 2 ≤ n) :
    slotVisits (iterRenderFrame (HelloSkiaWindow.init n sz) k).2
      = (List.range k).map (fun j => j % n) := by
  have h0 := iter_visits k (HelloSkiaWindow.init n sz) 0 n rfl rfl rfl (by omega)
  simpa using h0

/-- C3 witness: ring size 2, five calls, visitation `[0, 1, 0, 1, 0]`. -/
theorem C3_round_robin_witness :
    2 ≤ 2 ∧ slotVisits (iterRenderFrame (HelloSkiaWindow.init 2 ⟨4, 3⟩) 5).2 = [0, 1, 0, 1, 0] :=
  ⟨by norm_num,
   by rw [C3_round_robin 2 ⟨4, 3⟩ 5 (by norm_num)]; decide⟩

/-- C5: in every `RenderFrame` call (on a state whose ring index is in
range, as in every reachable state), the ordering between the non-library
clear and the library drawing is established GPU-side: the trace ends
with the non-library queue `Signal` of marker `m`, the library context's
GPU-side wait on exactly `m`, the library flush signaling `m + 1`, and
the present — with no CPU-blocking wait between or after the two
submissions. -/
theorem C5_gpu_side_ordering (s : HelloSkiaWindow)
    (hidx : s.mFrameIndex < s.mFrames.length) :
    ∃ pre m,
      (s.RenderFrame).2
          = pre ++ [Ev.queueSignal m, Ev.skiaGpuWait m, Ev.skiaSignal (m + 1), Ev.present]
        ∧ ∀ k : Nat,
            Ev.cpuWait k ∉ [Ev.queueSignal m, Ev.skiaGpuWait m, Ev.skiaSignal (m + 1), Ev.present] := by
  cases h : s.mPendingResize with
  | none =>
    refine ⟨Ev.slotVisit s.mFrameIndex
        :: ((if (s.mFrames.getD s.mFrameIndex default).mFenceValue ≠ 0
             then [Ev.cpuWait (s.mFrames.getD s.mFrameIndex default).mFenceValue]
             else [])
          ++ [Ev.allocReset s.mFrameIndex (s.mFrames.getD s.mFrameIndex default).mFenceValue]),
      s.mFenceValue + 1, ?_, by intro k; simp⟩
    rw [RenderFrame_trace_none s h hidx]
    simp
  | some sz =>
    have hlen : (applyResize s sz).mFrameIndex < (applyResize s sz).mFrames.length := by
      rw [(applyResize_fields s sz).2.1, (applyResize_fields s sz).2.2.2.2.1]
      omega
    have hinner := RenderFrame_trace_none (applyResize s sz) (applyResize_fields s sz).1 hlen
    refine ⟨(s.CleanupFrameContexts).2 ++ [Ev.resizeBuffers sz]
        ++ (Ev.slotVisit (applyResize s sz).mFrameIndex
          :: ((if ((applyResize s sz).mFrames.getD (applyResize s sz).mFrameIndex default).mFenceValue ≠ 0
               then [Ev.cpuWait ((applyResize s sz).mFrames.getD (applyResize s sz).mFrameIndex default).mFenceValue]
               else [])
            ++ [Ev.allocReset (applyResize s sz).mFrameIndex
                  ((applyResize s sz).mFrames.getD (applyResize s sz).mFrameIndex default).mFenceValue])),
      (applyResize s sz).mFenceValue + 1, ?_, by intro k; simp⟩
    rw [(RenderFrame_resize_decompose s sz h).2, hinner]
    simp

/-- C5 witness: the fresh ring-2 controller. -/
theorem C5_gpu_side_ordering_witness :
    ∃ pre m,
      ((HelloSkiaWindow.init 2 ⟨4, 3⟩).RenderFrame).2
          = pre ++ [Ev.queueSignal m, Ev.skiaGpuWait m, Ev.skiaSignal (m + 1), Ev.present]
        ∧ ∀ k : Nat,
            Ev.cpuWait k ∉ [Ev.queueSignal m, Ev.skiaGpuWait m, Ev.skiaSignal (m + 1), Ev.present] :=
  C5_gpu_side_ordering (HelloSkiaWindow.init 2 ⟨4, 3⟩) (by decide)

/-- An in-range `List.getD` read is a member of the list. -/
theorem getD_mem {α : Type} : ∀ (l : List α) (i : Nat) (d : α),
    i < l.length → l.getD i d ∈ l
  | [], _, _, h => absurd h (by simp)
  | x :: _, 0, _, _ => List.mem_cons_self x _
  | x :: t, i + 1, d, h =>
    List.mem_cons_of_mem x (getD_mem t i d (by simpa using h))

/-- An element of `l.set i a` is an old element or the new one. -/
theorem mem_set_cases {α : Type} {l : List α} {i : Nat} {a x : α}
    (h : x ∈ l.set i a) : x ∈ l ∨ x = a :=
  List.mem_or_eq_of_mem_set h

/-- A no-resize `RenderFrame` call never calls `ResizeBuffers`. -/
theorem renderFrame_none_no_resize_ev (t : HelloSkiaWindow) (h : t.mPendingResize = none)
    (sz2 : PixelSize) : Ev.resizeBuffers sz2 ∉ (t.RenderFrame).2 := by
  by_cases hidx : t.mFrameIndex < t.mFrames.length
  · rw [RenderFrame_trace_none t h hidx]
    split <;> simp
  · push_neg at hidx
    rw [RenderFrame_trace_none_oob t h hidx]
    simp

/-- A no-resize `RenderFrame` call keeps the window size. -/
theorem RenderFrame_mWindowSize_none (t : HelloSkiaWindow) (h : t.mPendingResize = none) :
    (t.RenderFrame).1.mWindowSize = t.mWindowSize := by
  simp [HelloSkiaWindow.RenderFrame, HelloSkiaWindow.RenderSkiaContent, h]

/-- A no-resize `RenderFrame` call keeps the swap-chain size. -/
theorem RenderFrame_swapChainSize_none (t : HelloSkiaWindow) (h : t.mPendingResize = none) :
    (t.RenderFrame).1.swapChainSize = t.swapChainSize := by
  simp [HelloSkiaWindow.RenderFrame, HelloSkiaWindow.RenderSkiaContent, h]

/-- A no-resize `RenderFrame` call preserves any pointwise property of
the slots' render-target resources. -/
theorem renderFrame_none_targets (t : HelloSkiaWindow) (h : t.mPendingResize = none)
    (P : Option PixelSize → Prop) (hP : ∀ f ∈ t.mFrames, P f.mRenderTarget) :
    ∀ f ∈ (t.RenderFrame).1.mFrames, P f.mRenderTarget := by
  by_cases hidx : t.mFrameIndex < t.mFrames.length
  · simp only [HelloSkiaWindow.RenderFrame, HelloSkiaWindow.RenderSkiaContent, h]
    intro f hf
    rcases mem_set_cases hf with hf2 | hf2
    · rcases mem_set_cases hf2 with hf3 | hf3
      · exact hP f hf3
      · subst hf3
        have hx := hP (t.mFrames.getD t.mFrameIndex default) (getD_mem _ _ _ hidx)
        simpa using hx
    · subst hf2
      rw [getD_set_self _ _ _ _ hidx]
      have hx := hP (t.mFrames.getD t.mFrameIndex default) (getD_mem _ _ _ hidx)
      simpa using hx
  · push_neg at hidx
    simp only [HelloSkiaWindow.RenderFrame, HelloSkiaWindow.RenderSkiaContent, h]
    rw [set_of_le _ _ _ hidx, set_of_le _ _ _ hidx]
    exact hP

/-- All render targets right after the resize prologue are against the
new dimensions. -/
theorem applyResize_targets (s : HelloSkiaWindow) (sz : PixelSize) :
    ∀ f ∈ (applyResize s sz).mFrames, f.mRenderTarget = some sz := by
  intro f hf
  simp only [applyResize, HelloSkiaWindow.CreateRenderTargets,
    HelloSkiaWindow.CleanupFrameContexts, List.map_map, List.mem_map] at hf
  obtain ⟨x, hx, rfl⟩ := hf
  rfl

/-- The resize prologue zeroes all slot markers, so they are bounded. -/
theorem applyResize_markersBounded (s : HelloSkiaWindow) (sz : PixelSize) :
    MarkersBounded (applyResize s sz) := by
  intro f hf
  simp only [applyResize, HelloSkiaWindow.CreateRenderTargets,
    HelloSkiaWindow.CleanupFrameContexts, List.map_map, List.mem_map] at hf
  obtain ⟨x, hx, rfl⟩ := hf
  simp

/-- A no-resize `RenderFrame` call preserves the marker bound. -/
theorem markersBounded_renderFrame_none (s : HelloSkiaWindow)
    (h : s.mPendingResize = none) (hb : MarkersBounded s) :
    MarkersBounded (s.RenderFrame).1 := by
  simp only [HelloSkiaWindow.RenderFrame, HelloSkiaWindow.RenderSkiaContent, h]
  intro f hf
  show f.mFenceValue ≤ s.mFenceValue + 1 + 1
  rcases mem_set_cases hf with hf2 | hf2
  · rcases mem_set_cases hf2 with hf3 | hf3
    · have hx := hb f hf3
      omega
    · subst hf3
      show s.mFenceValue + 1 ≤ s.mFenceValue + 1 + 1
      omega
  · subst hf2
    show s.mFenceValue + 1 + 1 ≤ s.mFenceValue + 1 + 1
    omega

/-- Any `RenderFrame` call preserves the marker bound. -/
theorem markersBounded_renderFrame (s : HelloSkiaWindow) (hb : MarkersBounded s) :
    MarkersBounded (s.RenderFrame).1 := by
  cases h : s.mPendingResize with
  | none => exact markersBounded_renderFrame_none s h hb
  | some sz =>
    rw [(RenderFrame_resize_decompose s sz h).1]
    exact markersBounded_renderFrame_none (applyResize s sz) (applyResize_fields s sz).1
      (applyResize_markersBounded s sz)

/-- Every stimulus preserves the marker bound. -/
theorem markersBounded_step (s : HelloSkiaWindow) (op : Op) (hb : MarkersBounded s) :
    MarkersBounded (s.step op).1 := by
  cases op with
  | opRenderFrame => exact markersBounded_renderFrame s hb
  | opMessage m =>
    intro f hf
    cases m <;> exact hb f hf
  | opCleanup =>
    intro f hf
    simp only [HelloSkiaWindow.step, HelloSkiaWindow.CleanupFrameContexts, List.mem_map] at hf
    obtain ⟨x, hx, rfl⟩ := hf
    simp

/-- The marker bound is an invariant of whole lifetimes. -/
theorem runOps_markersBounded : ∀ (ops : List Op) (s : HelloSkiaWindow),
    MarkersBounded s → MarkersBounded (HelloSkiaWindow.runOps s ops).1 := by
  intro ops
  induction ops with
  | nil => intro s hb; simpa [HelloSkiaWindow.runOps] using hb
  | cons op rest ih =>
    intro s hb
    simp only [HelloSkiaWindow.runOps]
    exact ih _ (markersBounded_step s op hb)

/-- The fresh controller satisfies the marker bound. -/
theorem init_markersBounded (n : Nat) (sz : PixelSize) :
    MarkersBounded (HelloSkiaWindow.init n sz) := by
  intro f hf
  simp only [HelloSkiaWindow.init, List.mem_replicate] at hf
  rw [hf.2]
  simp [HelloSkiaWindow.init]

/-- The resize prologue installs the new swap-chain size. -/
theorem applyResize_swapChainSize (s : HelloSkiaWindow) (sz : PixelSize) :
    (applyResize s sz).swapChainSize = sz := by
  simp [applyResize, HelloSkiaWindow.CreateRenderTargets]

/-- The resize prologue installs the new window size. -/
theorem applyResize_mWindowSize (s : HelloSkiaWindow) (sz : PixelSize) :
    (applyResize s sz).mWindowSize = sz := by
  simp [applyResize, HelloSkiaWindow.CreateRenderTargets]

/-- C6: when a resize is pending, `RenderFrame` first quiesces all
in-flight GPU work (Skia sync flush, a fresh quiescence marker signaled
and CPU-waited — which covers every slot's stored marker), then calls
`ResizeBuffers`, recreates every frame slot against the new dimensions,
records the new window size and clears the pending resize — all before
any of the frame's rendering work; the rendering tail contains no
further `ResizeBuffers` call, so a resize is never applied mid-frame. -/
theorem C6_resize_applied_before_rendering (s : HelloSkiaWindow) (sz : PixelSize)
    (hb : MarkersBounded s) (h : s.mPendingResize = some sz) :
    (s.RenderFrame).2
        = Ev.skiaSyncCpuFlush :: Ev.queueSignal (s.mFenceValue + 1)
          :: Ev.cpuWait (s.mFenceValue + 1) :: Ev.resizeBuffers sz
          :: ((applyResize s sz).RenderFrame).2
      ∧ (∀ sz2 : PixelSize, Ev.resizeBuffers sz2 ∉ ((applyResize s sz).RenderFrame).2)
      ∧ (∀ f ∈ s.mFrames, f.mFenceValue ≤ s.mFenceValue + 1)
      ∧ (s.RenderFrame).1.mPendingResize = none
      ∧ (s.RenderFrame).1.mWindowSize = sz
      ∧ (s.RenderFrame).1.swapChainSize = sz
      ∧ (∀ f ∈ (s.RenderFrame).1.mFrames, f.mRenderTarget = some sz) := by
  refine ⟨?_, ?_, ?_, RenderFrame_mPendingResize s, ?_, ?_, ?_⟩
  · rw [(RenderFrame_resize_decompose s sz h).2]
    rfl
  · exact fun sz2 =>
      renderFrame_none_no_resize_ev (applyResize s sz) (applyResize_fields s sz).1 sz2
  · intro f hf
    have hx := hb f hf
    omega
  · rw [(RenderFrame_resize_decompose s sz h).1,
      RenderFrame_mWindowSize_none (applyResize s sz) (applyResize_fields s sz).1,
      applyResize_mWindowSize]
  · rw [(RenderFrame_resize_decompose s sz h).1,
      RenderFrame_swapChainSize_none (applyResize s sz) (applyResize_fields s sz).1,
      applyResize_swapChainSize]
  · rw [(RenderFrame_resize_decompose s sz h).1]
    exact renderFrame_none_targets (applyResize s sz) (applyResize_fields s sz).1
      (fun t => t = some sz) (applyResize_targets s sz)

/-- A burst of size notifications keeps only the last size: each
`WM_SIZE` overwrites `mPendingResize`, so the state after the burst is
the original state with the last size pending. -/
theorem applyNotifications_last : ∀ (szs : List PixelSize) (s : HelloSkiaWindow) (sz : PixelSize),
    szs.getLast? = some sz → applyNotifications s szs = { s with mPendingResize := some sz }
  | [], _, _, h => by simp at h
  | [a], s, sz, h => by
    simp at h
    subst h
    rfl
  | a :: b :: t, s, sz, h => by
    have hrec := applyNotifications_last (b :: t) (s.WindowProc (Msg.wmSize a)) sz
      (by simpa using h)
    simpa [applyNotifications, HelloSkiaWindow.WindowProc] using hrec

/-- A resize-applying `RenderFrame` call performs exactly one
`ResizeBuffers`, with the pending size. -/
theorem renderFrame_some_filter_resize (s : HelloSkiaWindow) (sz : PixelSize)
    (h : s.mPendingResize = some sz) :
    ((s.RenderFrame).2.filter isResizeEv) = [Ev.resizeBuffers sz] := by
  rw [(RenderFrame_resize_decompose s sz h).2]
  have hnil : (((applyResize s sz).RenderFrame).2.filter isResizeEv) = [] := by
    rw [List.filter_eq_nil_iff]
    intro a ha
    cases a with
    | resizeBuffers sz2 =>
      exact absurd ha (renderFrame_none_no_resize_ev _ (applyResize_fields s sz).1 sz2)
    | skiaSyncCpuFlush => simp [isResizeEv]
    | queueSignal m => simp [isResizeEv]
    | skiaSignal m => simp [isResizeEv]
    | skiaGpuWait m => simp [isResizeEv]
    | cpuWait m => simp [isResizeEv]
    | allocReset i m => simp [isResizeEv]
    | slotVisit i => simp [isResizeEv]
    | present => simp [isResizeEv]
  simp [HelloSkiaWindow.CleanupFrameContexts, List.filter_append, isResizeEv, hnil]

/-- C6 witness: fresh ring-2 controller with a pending 8x6 resize. -/
theorem C6_resize_applied_before_rendering_witness :
    ({ HelloSkiaWindow.init 2 ⟨4, 3⟩ with
        mPendingResize := some (⟨8, 6⟩ : PixelSize) } : HelloSkiaWindow).RenderFrame.1.mWindowSize
        = (⟨8, 6⟩ : PixelSize)
      ∧ ({ HelloSkiaWindow.init 2 ⟨4, 3⟩ with
            mPendingResize := some (⟨8, 6⟩ : PixelSize) } : HelloSkiaWindow).RenderFrame.1.mPendingResize
        = none :=
  ⟨(C6_resize_applied_before_rendering
      { HelloSkiaWindow.init 2 ⟨4, 3⟩ with mPendingResize := some ⟨8, 6⟩ } ⟨8, 6⟩
      (by intro f hf
          simp [HelloSkiaWindow.init, List.mem_replicate] at hf
          rw [hf]
          exact Nat.zero_le _) rfl).2.2.2.2.1,
   (C6_resize_applied_before_rendering
      { HelloSkiaWindow.init 2 ⟨4, 3⟩ with mPendingResize := some ⟨8, 6⟩ } ⟨8, 6⟩
      (by intro f hf
          simp [HelloSkiaWindow.init, List.mem_replicate] at hf
          rw [hf]
          exact Nat.zero_le _) rfl).2.2.2.1⟩

/-- C7: if several `WM_SIZE` notifications arrive between two
`RenderFrame` calls, only the last notified size is retained as the
pending resize (intermediate sizes are discarded, not queued), and the
next `RenderFrame` call performs exactly one `ResizeBuffers`, with that
last size. -/
theorem C7_resize_coalescing (s : HelloSkiaWindow) (szs : List PixelSize) (sz : PixelSize)
    (h : szs.getLast? = some sz) :
    applyNotifications s szs = { s with mPendingResize := some sz }
      ∧ ((applyNotifications s szs).RenderFrame).2.filter isResizeEv = [Ev.resizeBuffers sz] := by
  have h1 := applyNotifications_last szs s sz h
  refine ⟨h1, ?_⟩
  rw [h1]
  exact renderFrame_some_filter_resize _ sz rfl

/-- C7 witness: three notifications coalesce into one resize to the
last size 5x7. -/
theorem C7_resize_coalescing_witness :
    applyNotifications (HelloSkiaWindow.init 2 ⟨4, 3⟩) [⟨1, 1⟩, ⟨2, 2⟩, ⟨5, 7⟩]
        = { HelloSkiaWindow.init 2 ⟨4, 3⟩ with mPendingResize := some ⟨5, 7⟩ }
      ∧ ((applyNotifications (HelloSkiaWindow.init 2 ⟨4, 3⟩)
            [⟨1, 1⟩, ⟨2, 2⟩, ⟨5, 7⟩]).RenderFrame).2.filter isResizeEv
        = [Ev.resizeBuffers ⟨5, 7⟩] :=
  C7_resize_coalescing (HelloSkiaWindow.init 2 ⟨4, 3⟩) [⟨1, 1⟩, ⟨2, 2⟩, ⟨5, 7⟩] ⟨5, 7⟩ rfl

/-- `WindowProc` leaves the exit code alone or sets it to 0. -/
theorem WindowProc_mExitCode (s : HelloSkiaWindow) (m : Msg) :
    (s.WindowProc m).mExitCode = s.mExitCode ∨ (s.WindowProc m).mExitCode = some 0 := by
  cases m <;> simp [HelloSkiaWindow.WindowProc]

/-- Only `WM_CLOSE` touches the exit code. -/
theorem WindowProc_mExitCode_of_ne (s : HelloSkiaWindow) (m : Msg) (h : m ≠ Msg.wmClose) :
    (s.WindowProc m).mExitCode = s.mExitCode := by
  cases m <;> simp_all [HelloSkiaWindow.WindowProc]

/-- Pumping any batch keeps the exit code in the none-or-zero states,
and an early `WM_QUIT` return carries exit code 0. -/
theorem PumpMessages_exit : ∀ (msgs : List Msg) (s : HelloSkiaWindow),
    (s.mExitCode = none ∨ s.mExitCode = some 0) →
    ((HelloSkiaWindow.PumpMessages s msgs).1.mExitCode = none
        ∨ (HelloSkiaWindow.PumpMessages s msgs).1.mExitCode = some 0)
      ∧ ∀ c : Int, (HelloSkiaWindow.PumpMessages s msgs).2 = some c → c = 0 := by
  intro msgs
  induction msgs with
  | nil =>
    intro s h
    exact ⟨h, by simp [HelloSkiaWindow.PumpMessages]⟩
  | cons m rest ih =>
    intro s h
    have hw : (s.WindowProc m).mExitCode = none ∨ (s.WindowProc m).mExitCode = some 0 := by
      rcases WindowProc_mExitCode s m with h2 | h2
      · rw [h2]; exact h
      · exact Or.inr h2
    by_cases hq : m = Msg.wmQuit
    · subst hq
      have hw2 : (s.WindowProc Msg.wmQuit).mExitCode = s.mExitCode := rfl
      refine ⟨?_, ?_⟩
      · simp only [HelloSkiaWindow.PumpMessages, if_pos rfl]
        rw [hw2]
        exact h
      · simp only [HelloSkiaWindow.PumpMessages, if_pos rfl]
        intro c hc
        rw [hw2] at hc
        rcases h with h | h <;> simp [h] at hc <;> omega
    · simp only [HelloSkiaWindow.PumpMessages, if_neg hq]
      exact ih (s.WindowProc m) hw

/-- Pumping a batch without `WM_CLOSE` / `WM_QUIT` returns no early
exit and keeps the exit code. -/
theorem PumpMessages_no_close : ∀ (msgs : List Msg) (s : HelloSkiaWindow),
    (∀ m ∈ msgs, m ≠ Msg.wmClose ∧ m ≠ Msg.wmQuit) →
    (HelloSkiaWindow.PumpMessages s msgs).2 = none
      ∧ (HelloSkiaWindow.PumpMessages s msgs).1.mExitCode = s.mExitCode := by
  intro msgs
  induction msgs with
  | nil =>
    intro s _
    exact ⟨rfl, rfl⟩
  | cons m rest ih =>
    intro s hm
    have h1 := hm m (List.mem_cons_self m rest)
    have hrest : ∀ x ∈ rest, x ≠ Msg.wmClose ∧ x ≠ Msg.wmQuit :=
      fun x hx => hm x (List.mem_cons_of_mem m hx)
    simp only [HelloSkiaWindow.PumpMessages, if_neg h1.2]
    have hx := ih (s.WindowProc m) hrest
    exact ⟨hx.1, by rw [hx.2, WindowProc_mExitCode_of_ne s m h1.1]⟩

/-- Whenever the render loop exits, the exit code is 0. -/
theorem Run_exit_zero : ∀ (script : List (List Msg)) (s : HelloSkiaWindow),
    (s.mExitCode = none ∨ s.mExitCode = some 0) →
    ∀ c : Int, (HelloSkiaWindow.Run s script).2.1 = some c → c = 0 := by
  intro script
  induction script with
  | nil =>
    intro s h c hc
    simp only [HelloSkiaWindow.Run] at hc
    cases he : s.mExitCode with
    | none =>
      rw [he] at hc
      simp at hc
    | some code =>
      rw [he] at hc
      simp at hc
      rcases h with h | h
      · rw [h] at he; cases he
      · rw [h] at he
        cases he
        omega
  | cons batch rest ih =>
    intro s h c hc
    rw [HelloSkiaWindow.Run] at hc
    cases he : s.mExitCode with
    | some code =>
      rw [he] at hc
      simp at hc
      rcases h with h | h
      · rw [h] at he; cases he
      · rw [h] at he
        cases he
        omega
    | none =>
      rw [he] at hc
      have hpump := PumpMessages_exit batch s (Or.inl he)
      cases hp : HelloSkiaWindow.PumpMessages s batch with
      | mk s2 r =>
        rw [hp] at hc
        cases r with
        | some code =>
          simp at hc
          have hz := hpump.2 code (by rw [hp])
          omega
        | none =>
          simp only [] at hc
          have hs2 : s2.mExitCode = none ∨ s2.mExitCode = some 0 := by
            have := hpump.1
            rwa [hp] at this
          have hs3 : (s2.RenderFrame).1.mExitCode = none
              ∨ (s2.RenderFrame).1.mExitCode = some 0 := by
            rw [RenderFrame_mExitCode]
            exact hs2
          exact ih (s2.RenderFrame).1 hs3 c hc

/-- The render loop never exits while no close (or quit) notification
arrives: it keeps pumping and rendering. -/
theorem Run_no_close_no_exit : ∀ (script : List (List Msg)) (s : HelloSkiaWindow),
    s.mExitCode = none →
    (∀ batch ∈ script, ∀ m ∈ batch, m ≠ Msg.wmClose ∧ m ≠ Msg.wmQuit) →
    (HelloSkiaWindow.Run s script).2.1 = none := by
  intro script
  induction script with
  | nil =>
    intro s he _
    rw [HelloSkiaWindow.Run, he]
  | cons batch rest ih =>
    intro s he hscript
    rw [HelloSkiaWindow.Run, he]
    have hpump := PumpMessages_no_close batch s
      (hscript batch (List.mem_cons_self batch rest))
    cases hp : HelloSkiaWindow.PumpMessages s batch with
    | mk s2 r =>
      rw [hp] at hpump
      obtain ⟨hr, hexit⟩ := hpump
      subst hr
      show (HelloSkiaWindow.Run (s2.RenderFrame).1 rest).2.1 = none
      exact ih (s2.RenderFrame).1
        (by rw [RenderFrame_mExitCode, hexit]; exact he)
        (fun b hb m hm => hscript b (List.mem_cons_of_mem batch hb) m hm)

/-- C9: the render loop runs until the platform close notification sets
an exit code — with no `WM_CLOSE` / `WM_QUIT` in the delivered messages
the loop never returns — and whenever it does exit after a normal
close, the program's exit code is 0. -/
theorem C9_run_until_close (n : Nat) (sz : PixelSize) (script : List (List Msg)) :
    (∀ c : Int, (HelloSkiaWindow.Run (HelloSkiaWindow.init n sz) script).2.1 = some c → c = 0)
      ∧ ((∀ batch ∈ script, ∀ m ∈ batch, m ≠ Msg.wmClose ∧ m ≠ Msg.wmQuit) →
          (HelloSkiaWindow.Run (HelloSkiaWindow.init n sz) script).2.1 = none) :=
  ⟨Run_exit_zero script (HelloSkiaWindow.init n sz) (Or.inl rfl),
   Run_no_close_no_exit script (HelloSkiaWindow.init n sz) rfl⟩

/-- C9 witness: a close in the second batch exits with code 0; a script
with no close keeps the loop running. -/
theorem C9_run_until_close_witness :
    (0 : Int) = 0
      ∧ (HelloSkiaWindow.Run (HelloSkiaWindow.init 2 ⟨4, 3⟩) [[Msg.other]]).2.1 = none :=
  ⟨(C9_run_until_close 2 ⟨4, 3⟩ [[Msg.wmClose]]).1 0 (by decide),
   (C9_run_until_close 2 ⟨4, 3⟩ [[Msg.other]]).2 (by decide)⟩

/-- In range, `getElem?` returns the `getD` read. -/
theorem getElem?_eq_getD {α : Type} : ∀ (l : List α) (i : Nat) (d : α),
    i < l.length → l[i]? = some (l.getD i d)
  | [], _, _, h => absurd h (by simp)
  | _ :: _, 0, _, _ => by simp
  | _ :: t, i + 1, d, h => by
    simpa using getElem?_eq_getD t i d (by simpa using h)

/-- Frame-slot updates of a no-resize `RenderFrame` call: only the
visited slot is written (twice, with the two fresh markers). -/
theorem RenderFrame_mFrames_none (s : HelloSkiaWindow) (h : s.mPendingResize = none) :
    (s.RenderFrame).1.mFrames =
      (s.mFrames.set s.mFrameIndex
          { s.mFrames.getD s.mFrameIndex default with mFenceValue := s.mFenceValue + 1 }).set
        s.mFrameIndex
        { (s.mFrames.set s.mFrameIndex
              { s.mFrames.getD s.mFrameIndex default with
                  mFenceValue := s.mFenceValue + 1 }).getD s.mFrameIndex default with
            mFenceValue := s.mFenceValue + 2 } := by
  simp [HelloSkiaWindow.RenderFrame, HelloSkiaWindow.RenderSkiaContent, h]

/-- From a state whose slots at positions from the ring index onward
all hold marker zero, the next `k` `RenderFrame` calls (staying within
one ring revolution) perform no CPU fence wait. -/
theorem iter_no_cpuWait : ∀ (k : Nat) (s : HelloSkiaWindow),
    s.mPendingResize = none →
    s.swapChainLength = s.mFrames.length →
    s.mFrameIndex + k ≤ s.mFrames.length →
    (∀ (j : Nat) (f : FrameContext), s.mFrameIndex ≤ j → s.mFrames[j]? = some f →
      f.mFenceValue = 0) →
    ∀ m : Nat, Ev.cpuWait m ∉ (iterRenderFrame s k).2 := by
  intro k
  induction k with
  | zero =>
    intro s _ _ _ _ m
    simp [iterRenderFrame]
  | succ k ih =>
    intro s hp hlen hbound hzero m
    have hidx : s.mFrameIndex < s.mFrames.length := by omega
    have hfence : (s.mFrames.getD s.mFrameIndex default).mFenceValue = 0 :=
      hzero s.mFrameIndex (s.mFrames.getD s.mFrameIndex default) (le_refl _)
        (getElem?_eq_getD s.mFrames s.mFrameIndex default hidx)
    simp only [iterRenderFrame, List.mem_append, not_or]
    have hfence2 : (s.mFrames[s.mFrameIndex]?.getD default).mFenceValue = 0 := by
      rw [← List.getD_eq_getElem?_getD]
      exact hfence
    constructor
    · rw [RenderFrame_trace_none s hp hidx]
      simp [hfence2]
    · by_cases hk : k = 0
      · subst hk
        simp [iterRenderFrame]
      · refine ih (s.RenderFrame).1 (RenderFrame_mPendingResize s) ?_ ?_ ?_ m
        · rw [RenderFrame_swapChainLength, RenderFrame_mFrames_length, hlen]
        · rw [RenderFrame_mFrameIndex_none s hp, RenderFrame_mFrames_length, hlen,
            Nat.mod_eq_of_lt (by omega)]
          omega
        · intro j f hj hf
          rw [RenderFrame_mFrameIndex_none s hp, hlen, Nat.mod_eq_of_lt (by omega)] at hj
          rw [RenderFrame_mFrames_none s hp] at hf
          rw [List.getElem?_set_ne (by omega), List.getElem?_set_ne (by omega)] at hf
          exact hzero j f (by omega) hf

/-- C10: after every quiescence (`CleanupFrameContexts`, run before a
resize and at shutdown) all frame slots hold completion marker zero and
the ring index restarts at slot 0; consequently, from any such state
(`t`, e.g. the post-resize state), the first reuse of each slot — the
first `k ≤ N` `RenderFrame` calls — performs no CPU wait on the
fence. -/
theorem C10_quiescence_resets (s t : HelloSkiaWindow) (k : Nat)
    (hp : t.mPendingResize = none) (hi : t.mFrameIndex = 0)
    (hz : ∀ f ∈ t.mFrames, f.mFenceValue = 0)
    (hn : t.swapChainLength = t.mFrames.length)
    (hk : k ≤ t.mFrames.length) :
    (∀ f ∈ (s.CleanupFrameContexts).1.mFrames, f.mFenceValue = 0)
      ∧ (s.CleanupFrameContexts).1.mFrameIndex = 0
      ∧ ∀ m : Nat, Ev.cpuWait m ∉ (iterRenderFrame t k).2 := by
  refine ⟨?_, rfl, ?_⟩
  · intro f hf
    simp only [HelloSkiaWindow.CleanupFrameContexts, List.mem_map] at hf
    obtain ⟨x, hx, rfl⟩ := hf
    rfl
  · intro m
    refine iter_no_cpuWait k t hp hn (by omega) ?_ m
    intro j f hj hf
    exact hz f (List.getElem?_mem hf)

/-- C10 witness: the fresh ring-2 controller, and the post-resize state
of a resized fresh controller rendering one full ring revolution. -/
theorem C10_quiescence_resets_witness :
    ((HelloSkiaWindow.init 2 ⟨4, 3⟩).CleanupFrameContexts).1.mFrameIndex = 0
      ∧ Ev.cpuWait 1 ∉
          (iterRenderFrame
            (applyResize
              { HelloSkiaWindow.init 2 ⟨4, 3⟩ with mPendingResize := some ⟨8, 6⟩ } ⟨8, 6⟩)
            2).2 :=
  ⟨(C10_quiescence_resets (HelloSkiaWindow.init 2 ⟨4, 3⟩)
      (applyResize { HelloSkiaWindow.init 2 ⟨4, 3⟩ with mPendingResize := some ⟨8, 6⟩ } ⟨8, 6⟩)
      2 rfl rfl (by decide) (by decide) (by decide)).2.1,
   (C10_quiescence_resets (HelloSkiaWindow.init 2 ⟨4, 3⟩)
      (applyResize { HelloSkiaWindow.init 2 ⟨4, 3⟩ with mPendingResize := some ⟨8, 6⟩ } ⟨8, 6⟩)
      2 rfl rfl (by decide) (by decide) (by decide)).2.2 1⟩
